import Mathlib

/-!
# Verification of the stock-monitor crossover engine

Shallow embedding of `backend/app/engine.py` (`check_crossover`, `run_checks`)
and `backend/app/database.py` (`add_to_watchlist`, `update_market_state`).
Prices and averages are Python floats in the source; we model them as
rationals, since every claim is about exact comparisons and control flow.
A Python exception escaping a call is modelled by `Except.error`.
-/

deriving instance DecidableEq for Except

namespace StockMonitor

/-- Direction tag passed to `_trigger` ("BULLISH" / "BEARISH"). -/
inductive Direction where
  | bullish
  | bearish
deriving DecidableEq

/-- Which return path of `check_crossover` was taken.  The four paths are
observably distinct in the source (different log lines; `alert` additionally
calls `_trigger`). -/
inductive Outcome where
  | bootstrap
  | noCross
  | weakCross
  | alert (dir : Direction)
deriving DecidableEq

/-- The fields of a `watch_list` row that `check_crossover` reads.
`last_price` / `last_dma` come from `watchlist_item.get(...)`, which yields
`None` when the key is absent; hence `Option`. -/
structure WatchItem where
  symbol : String
  dma_period : ℤ
  alert_threshold : ℚ
  last_price : Option ℚ
  last_dma : Option ℚ
deriving DecidableEq

/-- The snapshot dict built by `fetch_latest_snapshot`. -/
structure Snapshot where
  price : ℚ
  dma : ℚ
  change : ℚ
  change_percent : ℚ
deriving DecidableEq

/-- One call to `database.update_market_state(symbol, price, dma, change,
change_percent)`: a single write that always carries the whole pair. -/
structure StateUpdate where
  price : ℚ
  dma : ℚ
  change : ℚ
  change_percent : ℚ
deriving DecidableEq

/-- The observable effects of one `check_crossover` call: which path ran
(an `alert` outcome is exactly one `_trigger`, i.e. one alert), and the
`update_market_state` call performed, if any. -/
structure CrossEffects where
  outcome : Outcome
  write : Option StateUpdate
deriving DecidableEq

/-- Python truthiness of `watchlist_item.get("last_price")`:
`None` and `0.0` are falsy. -/
def pyTruthy : Option ℚ → Bool
  | none => false
  | some x => decide (x ≠ 0)

/-- The `update_market_state` argument tuple built from the current snapshot. -/
def updOf (d : Snapshot) : StateUpdate :=
  ⟨d.price, d.dma, d.change, d.change_percent⟩

/-- `engine.check_crossover(watchlist_item, current_data)`.

Mirrors the source line by line: bootstrap when either previous value is
falsy; `crossed_above = (prev_price < prev_dma) and (curr_price > curr_dma)`;
`crossed_below = (prev_price > prev_dma) and (curr_price < curr_dma)`;
on a crossing, `distance = abs(curr_price - curr_dma) / curr_dma` — a
`ZeroDivisionError` when `curr_dma == 0`, modelled as `Except.error ()`;
a weak cross returns without writing; an alert triggers and writes; the
final branch is the unconditional "save state" at the end of the function. -/
def check_crossover (item : WatchItem) (d : Snapshot) : Except Unit CrossEffects :=
  if ¬ pyTruthy item.last_price ∨ ¬ pyTruthy item.last_dma then
    .ok ⟨.bootstrap, some (updOf d)⟩
  else if (item.last_price.getD 0 < item.last_dma.getD 0 ∧ d.price > d.dma)
      ∨ (item.last_price.getD 0 > item.last_dma.getD 0 ∧ d.price < d.dma) then
    if d.dma = 0 then
      .error ()
    else if |d.price - d.dma| / d.dma < item.alert_threshold / 100 then
      .ok ⟨.weakCross, none⟩
    else if item.last_price.getD 0 < item.last_dma.getD 0 ∧ d.price > d.dma then
      .ok ⟨.alert .bullish, some (updOf d)⟩
    else if item.last_price.getD 0 > item.last_dma.getD 0 ∧ d.price < d.dma then
      .ok ⟨.alert .bearish, some (updOf d)⟩
    else
      .ok ⟨.noCross, some (updOf d)⟩
  else
    .ok ⟨.noCross, some (updOf d)⟩

/-- The persisted per-symbol market state (the columns `update_market_state`
touches).  Applying `none` means the call was not made: the row is untouched. -/
structure MarketState where
  last_price : Option ℚ
  last_dma : Option ℚ
  change : ℚ
  change_percent : ℚ
deriving DecidableEq

/-- Effect of an optional `update_market_state` call on the stored row. -/
def applyWrite (row : MarketState) : Option StateUpdate → MarketState
  | none => row
  | some u => ⟨some u.price, some u.dma, u.change, u.change_percent⟩

/-- One fully processed symbol of a cycle: the watch-list row that was read,
the snapshot `fetch_latest_snapshot` returned for it, and the effects of its
`check_crossover` call. -/
structure Trace where
  item : WatchItem
  data : Snapshot
  effects : CrossEffects
deriving DecidableEq

/-- `engine.run_checks()`.

The watch list comes from `database.get_watchlist()`; `fetch` gives the
result of `fetch_latest_snapshot` per symbol (`none` models its
catch-all-and-return-`None` failure path).  The loop body is
`if data: check_crossover(item, data)`, so a `none` fetch skips the symbol
and the loop continues.  Nothing catches an exception raised inside
`check_crossover`, so it aborts the loop: the returned flag is `true` when
the cycle was cut short that way, and the trace lists only the symbols whose
processing completed before that point. -/
def run_checks : List WatchItem → (String → Option Snapshot) → List Trace × Bool
  | [], _ => ([], false)
  | item :: rest, fetch =>
    match fetch item.symbol with
    | none => run_checks rest fetch
    | some d =>
      match check_crossover item d with
      | .error _ => ([], true)
      | .ok eff =>
        (⟨item, d, eff⟩ :: (run_checks rest fetch).1, (run_checks rest fetch).2)

/-- A full `watch_list` row (the columns `database.initialize_database`
creates).  `last_price` / `last_dma` are nullable in old rows, hence
`Option`. -/
structure DbRow where
  symbol : String
  dma_period : ℤ
  alert_threshold : ℚ
  company_name : Option String
  last_price : Option ℚ
  change : ℚ
  change_percent : ℚ
  last_dma : Option ℚ
  last_checked : String
deriving DecidableEq

/-- `database.add_to_watchlist(symbol, dma_period, alert_threshold,
company_name)`.  `existing` is what `get_watchlist_item(symbol.upper())`
returns; `now` stands for `datetime.utcnow().isoformat()`.  The function
builds a fresh record with zeroed state, copies `last_price` / `last_dma`
from the existing row when there is one, and upserts the record (every
column is present, so the upsert replaces the whole row); the stored row is
returned. -/
def add_to_watchlist (existing : Option DbRow) (symbol : String) (dma_period : ℤ)
    (alert_threshold : ℚ) (company_name : Option String) (now : String) : DbRow :=
  let record : DbRow :=
    ⟨symbol.toUpper, dma_period, alert_threshold, company_name, some 0, 0, 0, some 0, now⟩
  match existing with
  | some ex => { record with last_price := ex.last_price, last_dma := ex.last_dma }
  | none => record

-- scratch sanity checks (Scenario A..D of the spec)
example : check_crossover ⟨"X", 50, 0, some 100, some 105⟩ ⟨106, 105, 0, 0⟩
    = .ok ⟨.alert .bullish, some ⟨106, 105, 0, 0⟩⟩ := by
  norm_num [check_crossover, pyTruthy, updOf]
example : check_crossover ⟨"X", 50, 5, some 100, some 105⟩ ⟨106, 105.5, 0, 0⟩
    = .ok ⟨.weakCross, none⟩ := by
  norm_num [check_crossover, pyTruthy, updOf, abs_of_nonneg]
example : check_crossover ⟨"X", 50, 5, some 0, some 0⟩ ⟨50, 48, 0, 0⟩
    = .ok ⟨.bootstrap, some ⟨50, 48, 0, 0⟩⟩ := by
  norm_num [check_crossover, pyTruthy, updOf]
example : check_crossover ⟨"X", 50, 3, some 110, some 105⟩ ⟨95, 100, 0, 0⟩
    = .ok ⟨.alert .bearish, some ⟨95, 100, 0, 0⟩⟩ := by
  norm_num [check_crossover, pyTruthy, updOf]
example : check_crossover ⟨"X", 50, 3, some 1, some 2⟩ ⟨5, 0, 0, 0⟩
    = .error () := by
  norm_num [check_crossover, pyTruthy, updOf]

/-- C5: whenever `prev.price` or `prev.average` is the unset sentinel (the
stored value is zero or the key is absent), `check_crossover` takes the
bootstrap path: it persists `curr` and raises no alert, for every snapshot
and every threshold. -/
theorem C5_bootstrap_on_sentinel (item : WatchItem) (d : Snapshot)
    (h : (item.last_price = none ∨ item.last_price = some 0)
      ∨ (item.last_dma = none ∨ item.last_dma = some 0)) :
    check_crossover item d = .ok ⟨.bootstrap, some (updOf d)⟩ := by
  unfold check_crossover
  rw [if_pos]
  rcases h with h | h <;> rcases h with h | h <;>
    simp [pyTruthy, h]

/-- C5 witness: Scenario C — a freshly added symbol with zeroed state
bootstraps to `curr = {50, 48}` with no alert. -/
theorem C5_witness :
    check_crossover ⟨"NEW", 50, 5, some 0, some 0⟩ ⟨50, 48, 0, 0⟩
      = .ok ⟨.bootstrap, some (updOf ⟨50, 48, 0, 0⟩)⟩ :=
  C5_bootstrap_on_sentinel ⟨"NEW", 50, 5, some 0, some 0⟩ ⟨50, 48, 0, 0⟩
    (Or.inl (Or.inr rfl))

/-- C3: the claim says a zero `curr.average` is treated as no signal and a
division by zero never propagates.  The code has no such guard: on the
failing input `prev = {1, 2}`, `curr = {5, 0}` a crossing is detected
(`1 < 2` and `5 > 0`), `distance = abs(5 - 0) / 0` raises
`ZeroDivisionError`, and the exception escapes `check_crossover` — no
`NoCross` classification and no state advance happen. -/
theorem C3_division_by_zero_propagates :
    check_crossover ⟨"X", 50, 3, some 1, some 2⟩ ⟨5, 0, 0, 0⟩ = .error () := by
  norm_num [check_crossover, pyTruthy]

/-- C10: re-subscribing an existing symbol keeps the stored
`last_price` / `last_dma` pair, overwrites `dma_period`, `alert_threshold`
and `company_name` with the new values, resets `change` and
`change_percent` to `0.0`, and stamps `last_checked` with the current
time. -/
theorem C10_resubscribe_preserves_state (row : DbRow) (symbol : String)
    (dma_period : ℤ) (alert_threshold : ℚ) (company_name : Option String)
    (now : String) :
    add_to_watchlist (some row) symbol dma_period alert_threshold company_name now
      = ⟨symbol.toUpper, dma_period, alert_threshold, company_name,
          row.last_price, 0, 0, row.last_dma, now⟩ := rfl

/-- C4 counterexample: the claim's second half says a move from
exactly-equal (`prev.price = prev.average = 100`) to strictly below
(`90 < 100`) is detected as an above-to-below crossing.  The code requires
`prev_price > prev_dma` strictly for `crossed_below`, so with threshold 0
(any qualifying crossing would alert) it detects nothing: the outcome is
the no-cross path, no alert. -/
theorem C4_counterexample :
    ((100:ℚ) = 100) ∧ ((90:ℚ) < 100)
      ∧ check_crossover ⟨"X", 50, 0, some 100, some 100⟩ ⟨90, 100, 0, 0⟩
        = .ok ⟨.noCross, some ⟨90, 100, 0, 0⟩⟩ :=
  ⟨rfl, by norm_num, by norm_num [check_crossover, pyTruthy, updOf]⟩

/-- C4 as amended: equality never participates in a crossing, on either
observation.  A non-sentinel `prev` strictly below its average followed by
`curr.price = curr.average` is no crossing (NoCross, state advances) — and
symmetrically, a `prev` with `prev.price = prev.average` detects no
crossing either, whatever `curr` is (NoCross, state advances), rather than
the above-to-below crossing the original claim asserts. -/
theorem C4_equality_never_crosses (item : WatchItem) (d : Snapshot) (p q : ℚ)
    (hp : item.last_price = some p) (hq : item.last_dma = some q)
    (hp0 : p ≠ 0) (hq0 : q ≠ 0)
    (h : (p < q ∧ d.price = d.dma) ∨ p = q) :
    check_crossover item d = .ok ⟨.noCross, some (updOf d)⟩ := by
  unfold check_crossover
  rw [if_neg, if_neg]
  · rcases h with ⟨hpq, heq⟩ | heq
    · simp only [hp, hq, Option.getD_some, heq]
      rintro (⟨-, h2⟩ | ⟨h1, -⟩)
      · exact lt_irrefl _ h2
      · exact absurd hpq (not_lt.mpr h1.le)
    · simp only [hp, hq, Option.getD_some, heq]
      rintro (⟨h1, -⟩ | ⟨h1, -⟩) <;> exact lt_irrefl _ h1
  · simp [pyTruthy, hp, hq, hp0, hq0]

/-- C4 witness: `prev = {50, 60}` (below), `curr = {70, 70}` (price exactly
at the average): no crossing, state advances to `curr`. -/
theorem C4_witness :
    check_crossover ⟨"X", 50, 5, some 50, some 60⟩ ⟨70, 70, 0, 0⟩
      = .ok ⟨.noCross, some (updOf ⟨70, 70, 0, 0⟩)⟩ :=
  C4_equality_never_crosses ⟨"X", 50, 5, some 50, some 60⟩ ⟨70, 70, 0, 0⟩ 50 60
    rfl rfl (by norm_num) (by norm_num) (Or.inl ⟨by norm_num, rfl⟩)

/-- C1 counterexample: the claim defines "a crossing occurred" as the
strictly-below side differing between `prev` and `curr`.  Take
`prev = {100, 105}` (strictly below), `curr = {105, 105}` (not below — the
sides differ), `threshold = 5`; the distance `|105 - 105| / 105 = 0` is
below `5/100`, so the claim demands that the state be held at `prev` with
no persistence update.  The code detects no crossing here (`crossed_above`
needs `curr_price > curr_dma` strictly), takes the no-cross path and
advances the persisted state to `curr`. -/
theorem C1_counterexample :
    ((100:ℚ) < 105) ∧ ¬((105:ℚ) < 105)
      ∧ |(105:ℚ) - 105| / 105 < 5 / 100
      ∧ check_crossover ⟨"X", 50, 5, some 100, some 105⟩ ⟨105, 105, 1, 2⟩
        = .ok ⟨.noCross, some ⟨105, 105, 1, 2⟩⟩ :=
  ⟨by norm_num, by norm_num, by norm_num,
    by norm_num [check_crossover, pyTruthy, updOf]⟩

/-- C1 as amended: for a crossing as the code detects it — `prev` strictly
on one side and `curr` strictly on the other (`prev` non-sentinel, and
`curr.average ≠ 0` so the distance ratio is defined) — when the fractional
distance is strictly below `threshold/100`, `check_crossover` raises no
alert and performs no persistence update: the weak-cross path returns
before any write, so the stored row stays byte-identical to `prev`. -/
theorem C1_weak_cross_holds_state (item : WatchItem) (d : Snapshot) (p q : ℚ)
    (hp : item.last_price = some p) (hq : item.last_dma = some q)
    (hp0 : p ≠ 0) (hq0 : q ≠ 0)
    (hcross : (p < q ∧ d.price > d.dma) ∨ (p > q ∧ d.price < d.dma))
    (hdma : d.dma ≠ 0)
    (hweak : |d.price - d.dma| / d.dma < item.alert_threshold / 100) :
    check_crossover item d = .ok ⟨.weakCross, none⟩
      ∧ ∀ row : MarketState, applyWrite row none = row := by
  refine ⟨?_, fun row => rfl⟩
  unfold check_crossover
  rw [if_neg, if_pos, if_neg hdma, if_pos hweak]
  · simpa [hp, hq] using hcross
  · simp [pyTruthy, hp, hq, hp0, hq0]

/-- C1 witness: `prev = {100, 105}`, `curr = {106, 105}`, `threshold = 5`:
a genuine upward crossing at distance `1/105 < 5/100` is held — no alert,
no write. -/
theorem C1_witness :
    check_crossover ⟨"X", 50, 5, some 100, some 105⟩ ⟨106, 105, 0, 0⟩
      = .ok ⟨.weakCross, none⟩ :=
  (C1_weak_cross_holds_state ⟨"X", 50, 5, some 100, some 105⟩ ⟨106, 105, 0, 0⟩
    100 105 rfl rfl (by norm_num) (by norm_num) (Or.inl (by norm_num))
    (by norm_num) (by norm_num [abs_of_nonneg])).1

/-- C2: on a detected crossing whose fractional distance meets or exceeds
`threshold/100` (strict `<` is the weak case, `≥` qualifies), the code
emits exactly one alert — BULLISH for below-to-above, BEARISH for
above-to-below — and advances the persisted state to `curr`. -/
theorem C2_alert_direction_and_advance (item : WatchItem) (d : Snapshot) (p q : ℚ)
    (hp : item.last_price = some p) (hq : item.last_dma = some q)
    (hp0 : p ≠ 0) (hq0 : q ≠ 0)
    (hcross : (p < q ∧ d.price > d.dma) ∨ (p > q ∧ d.price < d.dma))
    (hdma : d.dma ≠ 0)
    (hstrong : item.alert_threshold / 100 ≤ |d.price - d.dma| / d.dma) :
    check_crossover item d
      = .ok ⟨.alert (if p < q then .bullish else .bearish), some (updOf d)⟩ := by
  unfold check_crossover
  rw [if_neg, if_pos, if_neg hdma, if_neg (not_lt.mpr hstrong)]
  · rcases hcross with ⟨h1, h2⟩ | ⟨h1, h2⟩
    · rw [if_pos, if_pos h1]
      simp [hp, hq, h1, h2]
    · rw [if_neg, if_pos, if_neg (not_lt.mpr h1.le)]
      · simp [hp, hq, h1, h2]
      · simp only [hp, hq, Option.getD_some]
        rintro ⟨h3, -⟩
        exact absurd h1 (not_lt.mpr h3.le)
  · simpa [hp, hq] using hcross
  · simp [pyTruthy, hp, hq, hp0, hq0]

/-- C2 witness: Scenario D — `prev = {110, 105}`, `curr = {95, 100}`,
`threshold = 3`: crossed below, distance `5/100 ≥ 3/100`, one BEARISH
alert, state advances to `curr`. -/
theorem C2_witness :
    check_crossover ⟨"X", 50, 3, some 110, some 105⟩ ⟨95, 100, 0, 0⟩
      = .ok ⟨.alert .bearish, some (updOf ⟨95, 100, 0, 0⟩)⟩ := by
  have h := C2_alert_direction_and_advance ⟨"X", 50, 3, some 110, some 105⟩
    ⟨95, 100, 0, 0⟩ 110 105 rfl rfl (by norm_num) (by norm_num)
    (Or.inr (by norm_num)) (by norm_num) (by norm_num [abs_of_nonpos])
  rw [if_neg (by norm_num : ¬((110:ℚ) < 105))] at h
  exact h

/-- Exhaustive description of the successful results of `check_crossover`:
bootstrap, weak cross, alert and no-cross, with their writes. -/
theorem check_crossover_ok_cases (item : WatchItem) (d : Snapshot)
    (r : CrossEffects) (h : check_crossover item d = .ok r) :
    r = ⟨.bootstrap, some (updOf d)⟩ ∨ r = ⟨.weakCross, none⟩
      ∨ (∃ dir, r = ⟨.alert dir, some (updOf d)⟩)
      ∨ r = ⟨.noCross, some (updOf d)⟩ := by
  unfold check_crossover at h
  split_ifs at h
  all_goals (injection h with h; subst h)
  · exact Or.inl rfl
  · exact Or.inr (Or.inl rfl)
  · exact Or.inr (Or.inr (Or.inl ⟨.bullish, rfl⟩))
  · exact Or.inr (Or.inr (Or.inl ⟨.bearish, rfl⟩))
  · exact Or.inr (Or.inr (Or.inr rfl))
  · exact Or.inr (Or.inr (Or.inr rfl))

/-- C6 counterexample: the claim says re-running with the advanced state
always yields NoCross.  Start from `prev = {10, 5}`, `curr = {0, 50}`,
`threshold = 3`: a qualifying downward crossing, so the first run alerts
BEARISH and persists `curr = {0, 50}`.  Feeding that state back, the stored
`last_price` is `0.0` — Python-falsy — so the second run takes the
bootstrap path, not the NoCross path the claim requires (it still raises no
alert). -/
theorem C6_counterexample :
    check_crossover ⟨"X", 50, 3, some 10, some 5⟩ ⟨0, 50, 0, 0⟩
        = .ok ⟨.alert .bearish, some ⟨0, 50, 0, 0⟩⟩
      ∧ check_crossover ⟨"X", 50, 3, some 0, some 50⟩ ⟨0, 50, 0, 0⟩
        = .ok ⟨.bootstrap, some ⟨0, 50, 0, 0⟩⟩
      ∧ Outcome.bootstrap ≠ Outcome.noCross :=
  ⟨by norm_num [check_crossover, pyTruthy, updOf, abs_of_nonpos],
    by norm_num [check_crossover, pyTruthy, updOf],
    by decide⟩

/-- C6 as amended: when a NoCross or Alert outcome advances the state to
`curr` and `curr.price` and `curr.average` are both nonzero (so the stored
pair is not the Python-falsy bootstrap sentinel), re-running with the same
`curr` yields NoCross — the same observation can never be strictly on both
sides of its own average, so no second alert is emitted.  When a component
of `curr` is zero the re-run takes the bootstrap path instead (which also
raises no alert). -/
theorem C6_idempotent_no_realert (item item2 : WatchItem) (d : Snapshot)
    (r : CrossEffects)
    (h1 : check_crossover item d = .ok r)
    (h2 : r.outcome = .noCross ∨ ∃ dir, r.outcome = .alert dir)
    (hp : d.price ≠ 0) (hq : d.dma ≠ 0)
    (h3 : item2.last_price = some d.price) (h4 : item2.last_dma = some d.dma) :
    r.write = some (updOf d)
      ∧ check_crossover item2 d = .ok ⟨.noCross, some (updOf d)⟩ := by
  constructor
  · rcases check_crossover_ok_cases item d r h1 with rfl | rfl | ⟨dir, rfl⟩ | rfl
    · simp at h2
    · simp at h2
    · rfl
    · rfl
  · unfold check_crossover
    rw [if_neg, if_neg]
    · simp only [h3, h4, Option.getD_some]
      rintro (⟨ha, hb⟩ | ⟨ha, hb⟩) <;> exact absurd hb (not_lt.mpr ha.le)
    · simp [pyTruthy, h3, h4, hp, hq]

/-- C6 witness: `prev = {100, 105}`, `curr = {106, 105}`, `threshold = 0`
alerts BULLISH and advances to `{106, 105}`; re-running from that state
with the same snapshot is NoCross. -/
theorem C6_witness :
    (⟨Outcome.alert .bullish, some (updOf ⟨106, 105, 0, 0⟩)⟩ : CrossEffects).write
        = some (updOf ⟨106, 105, 0, 0⟩)
      ∧ check_crossover ⟨"X", 50, 0, some 106, some 105⟩ ⟨106, 105, 0, 0⟩
        = .ok ⟨.noCross, some (updOf ⟨106, 105, 0, 0⟩)⟩ :=
  C6_idempotent_no_realert ⟨"X", 50, 0, some 100, some 105⟩
    ⟨"X", 50, 0, some 106, some 105⟩ ⟨106, 105, 0, 0⟩
    ⟨.alert .bullish, some (updOf ⟨106, 105, 0, 0⟩)⟩
    (by norm_num [check_crossover, pyTruthy, updOf, abs_of_nonneg])
    (Or.inr ⟨.bullish, rfl⟩) (by norm_num) (by norm_num) rfl rfl

/-- C7 counterexample: the claim says no failure in one symbol's processing
may prevent the processing of any other symbol.  Give "AAA" a snapshot
whose average is zero while its stored state shows a crossing: its
`check_crossover` raises (nothing in `run_checks` catches it), the cycle
aborts, and "BBB" — which on its own processes fine — is never reached. -/
theorem C7_counterexample :
    run_checks
        [⟨"AAA", 50, 3, some 1, some 2⟩, ⟨"BBB", 50, 3, some 10, some 5⟩]
        (fun s => if s = "AAA" then some ⟨5, 0, 0, 0⟩ else some ⟨6, 5, 0, 0⟩)
      = ([], true)
      ∧ run_checks [⟨"BBB", 50, 3, some 10, some 5⟩]
        (fun s => if s = "AAA" then some ⟨5, 0, 0, 0⟩ else some ⟨6, 5, 0, 0⟩)
      = ([⟨⟨"BBB", 50, 3, some 10, some 5⟩, ⟨6, 5, 0, 0⟩,
          ⟨.noCross, some ⟨6, 5, 0, 0⟩⟩⟩], false) := by
  constructor <;> decide

/-- C7 as amended: fetch-failure isolation holds — when
`fetch_latest_snapshot` returns `None` for a symbol, `run_checks` skips
exactly that symbol and the rest of the cycle proceeds as if it were not on
the list.  (An exception inside crossover evaluation or persistence,
however, aborts the remainder of the cycle, as the counterexample shows.) -/
theorem C7_fetch_failure_is_isolated (item : WatchItem) (rest : List WatchItem)
    (fetch : String → Option Snapshot) (h : fetch item.symbol = none) :
    run_checks (item :: rest) fetch = run_checks rest fetch := by
  simp only [run_checks, h]

/-- C7 witness: a one-element watch list whose fetch fails runs like the
empty watch list. -/
theorem C7_witness :
    run_checks [⟨"AAA", 50, 3, some 10, some 5⟩] (fun _ => none)
      = run_checks [] (fun _ => none) :=
  C7_fetch_failure_is_isolated ⟨"AAA", 50, 3, some 10, some 5⟩ [] (fun _ => none) rfl

/-- Helper for C8: any write `check_crossover` performs carries the full
`(price, dma, change, change_percent)` tuple of the current snapshot. -/
theorem check_crossover_write_is_paired (item : WatchItem) (d : Snapshot)
    (r : CrossEffects) (h : check_crossover item d = .ok r) :
    r.write = none ∨ r.write = some (updOf d) := by
  rcases check_crossover_ok_cases item d r h with rfl | rfl | ⟨dir, rfl⟩ | rfl
  · exact Or.inr rfl
  · exact Or.inl rfl
  · exact Or.inr rfl
  · exact Or.inr rfl

/-- C8: every persistence write produced during a cycle is one
`update_market_state` call whose `last_price` and `last_dma` come together
from the same observation — the snapshot fetched for that symbol in that
cycle; no write touches one of the pair without the other. -/
theorem C8_writes_are_paired (ws : List WatchItem)
    (fetch : String → Option Snapshot) (t : Trace)
    (ht : t ∈ (run_checks ws fetch).1) :
    t.effects.write = none ∨ t.effects.write = some (updOf t.data) := by
  induction ws with
  | nil => simp [run_checks] at ht
  | cons item rest ih =>
    cases hf : fetch item.symbol with
    | none =>
      rw [show run_checks (item :: rest) fetch = run_checks rest fetch by
        simp only [run_checks, hf]] at ht
      exact ih ht
    | some d =>
      cases hc : check_crossover item d with
      | error e =>
        rw [show run_checks (item :: rest) fetch = ([], true) by
          simp only [run_checks, hf, hc]] at ht
        simp at ht
      | ok eff =>
        rw [show run_checks (item :: rest) fetch
            = (⟨item, d, eff⟩ :: (run_checks rest fetch).1,
                (run_checks rest fetch).2) by
          simp only [run_checks, hf, hc]] at ht
        rcases List.mem_cons.mp ht with rfl | hmem
        · exact check_crossover_write_is_paired item d eff hc
        · exact ih hmem

/-- C8 witness: in a one-symbol cycle whose check takes the no-cross path,
the single trace's write is the paired update from its snapshot. -/
theorem C8_witness :
    (⟨⟨"BBB", 50, 3, some 10, some 5⟩, ⟨6, 5, 1, 2⟩,
        ⟨.noCross, some ⟨6, 5, 1, 2⟩⟩⟩ : Trace).effects.write = none
      ∨ (⟨⟨"BBB", 50, 3, some 10, some 5⟩, ⟨6, 5, 1, 2⟩,
          ⟨.noCross, some ⟨6, 5, 1, 2⟩⟩⟩ : Trace).effects.write
        = some (updOf ⟨6, 5, 1, 2⟩) :=
  C8_writes_are_paired [⟨"BBB", 50, 3, some 10, some 5⟩]
    (fun _ => some ⟨6, 5, 1, 2⟩) _
    (by norm_num [run_checks, check_crossover, pyTruthy, updOf])

end StockMonitor
